import Mathlib

/-!
Verification of the ingestion pipeline of the user-manuals-rag repository
(`src/ingest.py`, helper `src/document_parser.py`).

The pipeline is embedded shallowly: the loosely-typed Python metadata
dictionaries become records of optional fields, external collaborators
(the PDF parser, the langchain text splitter, the FAISS builder, the GCS
client) become explicit parameters carrying their observable outcomes, and
raised exceptions become `Except` values.
-/

/-- A langchain `Document`, as produced by `parse_pdf_elements`
(`document_parser.py`) and as emitted by
`DocumentIngestionPipeline.process_documents` (`ingest.py:194-242`).
The Python metadata dictionary is modelled as a record of optional fields
(absent key = `none`); `metadata.get(k)` is plain field access and
`metadata.get(k, d)` is `(field).getD d`.  `time.time()` timestamps are
modelled as natural numbers supplied by the ambient clock. -/
structure Doc where
  page_content : String
  category : Option String
  text_as_html : Option String
  filename : Option String
  page_number : Option Int
  source : Option String
  content_type : Option String
  ingestion_timestamp : Option Nat
  deriving DecidableEq, Repr

/-- The repository's `IngestionError` exception (`ingest.py:43-48`). -/
structure IngestionError where
  msg : String
  deriving DecidableEq, Repr

/-- A raised Python exception, distinguished exactly as far as the pipeline
distinguishes exceptions: `transient` covers the classes accepted by
`google.api_core.retry.if_transient_error` (`ServiceUnavailable`,
`TooManyRequests`, `InternalServerError`, `ConnectionError`, ...),
`ingestion` is the repository's own `IngestionError`, and `other` is any
other exception class. -/
inductive PyErr where
  | transient (msg : String)
  | ingestion (msg : String)
  | other (msg : String)
  deriving DecidableEq, Repr

/-- `str(e)` on a raised exception. -/
def PyErr.message : PyErr → String
  | .transient m => m
  | .ingestion m => m
  | .other m => m

/-- `google.api_core.retry.if_transient_error`: only `transient` exception
classes satisfy the retry predicate; in particular `IngestionError` does not. -/
def if_transient_error : PyErr → Bool
  | .transient _ => true
  | _ => false

/-- The segment of a character list after its last `/` (the `foldl` resets
its accumulator at every slash). -/
def afterLastSlash (l : List Char) : List Char :=
  l.foldl (fun acc c => if c = '/' then [] else acc ++ [c]) []

/-- Models Python `pathlib.Path(s).name` as used at `ingest.py:228`:
trailing slashes are ignored and the component after the last remaining
`/` is returned.  (Faithful to `pathlib` for paths whose last component is
not `.` or `..` — which `pathlib` collapses — the only inputs the pipeline
feeds it: filenames and `gs://` URIs built from them.) -/
def pathName (s : String) : String :=
  String.mk (afterLastSlash ((s.data.reverse.dropWhile (fun c => c = '/')).reverse))

/-- The text-lane metadata propagation of `process_documents`
(`ingest.py:227-234`): take the final path component of the chunk's current
`source`, rewrite `source` to `gs://<raw-docs-bucket>/<that component>`, and
set `content_type := "text"` and the ingestion timestamp. -/
def propagateMetadata (bucket : String) (now : Nat) (chunk : Doc) : Doc :=
  let original_filename := pathName (chunk.source.getD "")
  let gcs_source_path := "gs://" ++ bucket ++ "/" ++ original_filename
  { chunk with
      source := some gcs_source_path
      content_type := some "text"
      ingestion_timestamp := some now }

/-- The single chunk built from a `Table` element (`ingest.py:214-224`):
its content is the element's HTML rendering and its metadata dictionary is
built afresh with exactly the keys `source` (the element's `filename`
metadata), `page_number`, `content_type` and `ingestion_timestamp`. -/
def tableChunk (now : Nat) (e : Doc) : Doc :=
  { page_content := e.text_as_html.getD ""
    category := none
    text_as_html := none
    filename := none
    page_number := e.page_number
    source := e.filename
    content_type := some "table"
    ingestion_timestamp := some now }

/-- The chunks contributed by one parsed element in `process_documents`
(`ingest.py:208-235`).  `ts` is the injected
`RecursiveCharacterTextSplitter.split_documents` applied to one element
(`ingest.py:226`), an external langchain dependency kept abstract.  A
`Table` element passes its HTML through untouched when it is non-empty
(Python string truthiness); a `Title` / `NarrativeText` / `ListItem`
element is split and each piece gets the metadata propagation; every other
category is dropped. -/
def chunksOfElement (ts : Doc → List Doc) (bucket : String) (now : Nat) (e : Doc) :
    List Doc :=
  if e.category = some "Table" then
    if e.text_as_html.getD "" ≠ "" then [tableChunk now e] else []
  else if e.category = some "Title" ∨ e.category = some "NarrativeText" ∨
      e.category = some "ListItem" then
    (ts e).map (propagateMetadata bucket now)
  else
    []

/-- `DocumentIngestionPipeline.process_documents` (`ingest.py:194-242`).
`parseRes` stands for the external `parse_pdf_elements` batch call: the
elements it returned on success, or the exception it raised, in which case
the surrounding `except` wraps it into an `IngestionError`. -/
def process_documents (ts : Doc → List Doc) (bucket : String) (now : Nat)
    (pdf_files : List String) (parseRes : Except PyErr (List Doc)) :
    Except IngestionError (List Doc) :=
  if pdf_files.isEmpty then
    .error ⟨"No valid PDF files to process"⟩
  else
    match parseRes with
    | .error e => .error ⟨"Document processing failed: " ++ e.message⟩
    | .ok all_elements => .ok (all_elements.flatMap (chunksOfElement ts bucket now))

/-- `IngestionConfig` (`ingest.py:27-40`): a plain `@dataclass`.  Chunk
sizes are integers so that non-positive values are representable. -/
structure IngestionConfig where
  project_id : String
  raw_docs_bucket : String
  vector_store_bucket : String
  chunk_size : Int
  chunk_overlap : Int
  max_retries : Nat
  batch_size : Nat
  temp_dir : String
  deriving DecidableEq, Repr

/-- Construction of `IngestionConfig` (`ingest.py:27-40`).  The dataclass
has no `__post_init__` and no validators: construction stores the fields
verbatim and cannot raise.  It is given a fallible signature so that
"configuration construction fails" is statable. -/
def IngestionConfig.make (project_id raw_docs_bucket vector_store_bucket : String)
    (chunk_size chunk_overlap : Int) (max_retries batch_size : Nat)
    (temp_dir : String) : Except IngestionError IngestionConfig :=
  .ok { project_id := project_id, raw_docs_bucket := raw_docs_bucket,
        vector_store_bucket := vector_store_bucket, chunk_size := chunk_size,
        chunk_overlap := chunk_overlap, max_retries := max_retries,
        batch_size := batch_size, temp_dir := temp_dir }

/-- The on-disk state of `<local_dir>/faiss_index` after the external
`FAISS.from_documents` / `save_local` calls: whether the directory exists,
and the byte sizes of `index.faiss` and `index.pkl` (`none` = file absent). -/
structure FaissArtifact where
  dirExists : Bool
  faiss_size : Option Nat
  pkl_size : Option Nat
  deriving DecidableEq, Repr

/-- `DocumentIngestionPipeline.create_vector_store` (`ingest.py:244-282`).
`buildRes` stands for the external `FAISS.from_documents`/`save_local`
calls and `art` for the on-disk artifact they leave behind.  The checks
mirror the source in order: empty chunk list (raised before the `try`
block), directory existence, then for `index.faiss` and `index.pkl` in
turn existence and non-zero size; every exception inside the `try` block —
including the validation `IngestionError`s themselves — is re-wrapped with
the `Vector store creation failed:` prefix by the surrounding `except`. -/
def create_vector_store (chunks : List Doc) (buildRes : Except PyErr Unit)
    (art : FaissArtifact) (local_dir : String) : Except IngestionError String :=
  if chunks.isEmpty then
    .error ⟨"No chunks provided for vector store creation"⟩
  else
    let db_path := local_dir ++ "/faiss_index"
    match buildRes with
    | .error e => .error ⟨"Vector store creation failed: " ++ e.message⟩
    | .ok _ =>
      if !art.dirExists then
        .error ⟨"Vector store creation failed: FAISS index directory was not created at "
          ++ db_path⟩
      else
        match art.faiss_size with
        | none =>
          .error ⟨"Vector store creation failed: Required FAISS file not found: "
            ++ db_path ++ "/index.faiss"⟩
        | some n =>
          if n = 0 then
            .error ⟨"Vector store creation failed: FAISS file is empty: "
              ++ db_path ++ "/index.faiss"⟩
          else
            match art.pkl_size with
            | none =>
              .error ⟨"Vector store creation failed: Required FAISS file not found: "
                ++ db_path ++ "/index.pkl"⟩
            | some m =>
              if m = 0 then
                .error ⟨"Vector store creation failed: FAISS file is empty: "
                  ++ db_path ++ "/index.pkl"⟩
              else
                .ok db_path

/-- A scratch directory handed out by `tempfile.mkdtemp()`; `mkdtemp`
guarantees a directory that no other caller holds, modelled by a
generator counter. -/
structure TempDir where
  id : Nat
  deriving DecidableEq, Repr

/-- The filesystem path of a scratch directory. -/
def TempDir.path (d : TempDir) : String :=
  "/tmp/ingest" ++ Nat.repr d.id

/-- `tempfile.mkdtemp()` as used by
`DocumentIngestionPipeline.temporary_directory` (`ingest.py:117-138`):
returns a fresh scratch directory and the advanced generator state. -/
def mkdtemp (g : Nat) : TempDir × Nat :=
  (⟨g⟩, g + 1)

/-- Python `name.lower()` (ASCII case, which is all `.PDF`-matching needs). -/
def lowerName (s : String) : String :=
  String.mk (s.data.map Char.toLower)

/-- `blob.name.lower().endswith(".pdf")` (`ingest.py:157`). -/
def hasPdfExt (name : String) : Bool :=
  ".pdf".data.isSuffixOf (lowerName name).data

/-- The blobs `download_from_gcs` actually downloads (`ingest.py:155-166`):
every listed object whose lowercased name ends in `.pdf`; others are
logged and skipped. -/
def pdfBlobs (blobs : List String) : List String :=
  blobs.filter hasPdfExt

/-- The local paths produced by the download loop (`ingest.py:161-166`):
`os.path.join(local_dir, blob.name)` for each downloaded blob. -/
def download_from_gcs_files (td : TempDir) (blobs : List String) : List String :=
  (pdfBlobs blobs).map (fun n => td.path ++ "/" ++ n)

/-- The body of `download_from_gcs` (`ingest.py:145-173`): on success the
downloaded local paths; any exception raised inside is caught by the
blanket `except` and re-raised as `IngestionError` (`ingest.py:171-173`).
`listing` is the outcome of the GCS `list_blobs` + download calls. -/
def download_from_gcs_body (td : TempDir) (listing : Except PyErr (List String)) :
    Except PyErr (List String) :=
  match listing with
  | .ok blobs => .ok (download_from_gcs_files td blobs)
  | .error e => .error (.ingestion ("GCS download failed: " ++ e.message))

/-- The body of `upload_to_gcs` (`ingest.py:289-316`): any exception is
caught and re-raised as `IngestionError` (`ingest.py:314-316`).
`uploadRes` is the outcome of the GCS upload calls. -/
def upload_to_gcs_body (uploadRes : Except PyErr Unit) : Except PyErr Unit :=
  match uploadRes with
  | .ok _ => .ok ()
  | .error e => .error (.ingestion ("GCS upload failed: " ++ e.message))

/-- `google.api_core.retry.Retry(predicate=if_transient_error)` around a
body (`ingest.py:140` and `ingest.py:284`): attempt the call; when it
raises an error accepted by the predicate and budget remains, sleep with
backoff and re-attempt; otherwise propagate the error.  `fuel` bounds the
re-attempts (the real decorator bounds them by a deadline); `op k` is the
outcome of attempt `k`.  Returns the result together with the number of
attempts made. -/
def retryCall (op : Nat → Except PyErr α) : Nat → Nat → Except PyErr α × Nat
  | 0, k => (op k, 1)
  | fuel + 1, k =>
    match op k with
    | .ok a => (.ok a, 1)
    | .error e =>
      if if_transient_error e then
        let r := retryCall op fuel (k + 1)
        (r.1, r.2 + 1)
      else
        (.error e, 1)

/-- The decorated `download_from_gcs` (`ingest.py:140-173`): the retry
wrapper applied to the body, starting at attempt `0`. -/
def download_from_gcs (td : TempDir) (listing : Nat → Except PyErr (List String))
    (fuel : Nat) : Except PyErr (List String) × Nat :=
  retryCall (fun k => download_from_gcs_body td (listing k)) fuel 0

/-- The decorated `upload_to_gcs` (`ingest.py:284-316`). -/
def upload_to_gcs (uploads : Nat → Except PyErr Unit) (fuel : Nat) :
    Except PyErr Unit × Nat :=
  retryCall (fun k => upload_to_gcs_body (uploads k)) fuel 0

/-- `validate_pdf_files` (`ingest.py:175-192`): keep the files that exist
and have non-zero size; `sizeOf` maps a local path to its byte size
(`none` = file absent). -/
def validate_pdf_files (sizeOf : String → Option Nat) (file_paths : List String) :
    List String :=
  file_paths.filter (fun p =>
    match sizeOf p with
    | none => false
    | some sz => sz != 0)

/-- The `stats` dictionary returned by `DocumentIngestionPipeline.run`
(`ingest.py:322-328`); `upload_failed`/`upload_error` are keys only added
on a failed upload (`ingest.py:357-358`), hence optional. -/
structure RunStats where
  files_processed : Nat
  chunks_created : Nat
  processing_time : Nat
  success : Bool
  upload_failed : Option Bool
  upload_error : Option String
  deriving DecidableEq, Repr

/-- What one call of `run` leaves behind: the returned stats or the
propagated `IngestionError`, whether the upload step was ever entered,
and the scratch directory the run used. -/
instance {ε α : Type} [DecidableEq ε] [DecidableEq α] : DecidableEq (Except ε α) :=
  fun a b =>
    match a, b with
    | .ok x, .ok y =>
      if h : x = y then .isTrue (by rw [h]) else .isFalse (by simp [h])
    | .error x, .error y =>
      if h : x = y then .isTrue (by rw [h]) else .isFalse (by simp [h])
    | .ok _, .error _ => .isFalse (by simp)
    | .error _, .ok _ => .isFalse (by simp)

structure RunOutcome where
  result : Except IngestionError RunStats
  upload_attempted : Bool
  scratch : TempDir
  deriving DecidableEq, Repr

/-- The outcomes of every external call one `run` makes: the GCS listing
(`blobs`, or `download_error` when listing/downloading raises), the local
file sizes seen by validation, the parser's result, the FAISS build
outcome and resulting artifact, the upload outcome, the clock value and
the elapsed wall time. -/
structure RunEnv where
  blobs : List String
  download_error : Option PyErr
  local_file_size : String → Option Nat
  parse_result : Except PyErr (List Doc)
  build_result : Except PyErr Unit
  artifact : FaissArtifact
  upload_result : Except PyErr Unit
  now : Nat
  elapsed : Nat

/-- `DocumentIngestionPipeline.run` (`ingest.py:318-374`): acquire a fresh
scratch directory, download, count `files_processed`, validate, process,
build and validate the vector store, then upload — catching only upload
failures, which set `upload_failed`/`upload_error` while the run still
returns `success = true`.  Every other failure propagates (the outer
`except` just re-raises).  The retried GCS wrappers are modelled by a
single attempt because their bodies only ever raise `IngestionError`,
which the retry predicate rejects (see `transient_errors_not_retried`).
`run` never reads `cfg.temp_dir`; the scratch directory comes from
`mkdtemp`. -/
def runP (ts : Doc → List Doc) (cfg : IngestionConfig) (env : RunEnv) (g : Nat) :
    RunOutcome :=
  let td := (mkdtemp g).1
  let listing : Except PyErr (List String) :=
    match env.download_error with
    | some e => .error e
    | none => .ok env.blobs
  match download_from_gcs_body td listing with
  | .error e => { result := .error ⟨e.message⟩, upload_attempted := false, scratch := td }
  | .ok pdf_files =>
    let files_processed := pdf_files.length
    let valid_files := validate_pdf_files env.local_file_size pdf_files
    match process_documents ts cfg.raw_docs_bucket env.now valid_files env.parse_result with
    | .error err => { result := .error err, upload_attempted := false, scratch := td }
    | .ok chunks =>
      match create_vector_store chunks env.build_result env.artifact td.path with
      | .error err => { result := .error err, upload_attempted := false, scratch := td }
      | .ok _vector_store_path =>
        match upload_to_gcs_body env.upload_result with
        | .ok _ =>
          let stats : RunStats :=
            { files_processed := files_processed
              chunks_created := chunks.length
              processing_time := env.elapsed
              success := true
              upload_failed := none
              upload_error := none }
          { result := .ok stats, upload_attempted := true, scratch := td }
        | .error e =>
          let stats : RunStats :=
            { files_processed := files_processed
              chunks_created := chunks.length
              processing_time := env.elapsed
              success := true
              upload_failed := some true
              upload_error := some e.message }
          { result := .ok stats, upload_attempted := true, scratch := td }

/-! ### Concrete fixtures used by witnesses and counterexamples -/

/-- A `Table` element as `parse_pdf_elements` would return it for a table
on page 1 of `manual.pdf`. -/
def eTable : Doc :=
  { page_content := ""
    category := some "Table"
    text_as_html := some "<table><tr><td>1</td></tr></table>"
    filename := some "manual.pdf"
    page_number := some 1
    source := some "/tmp/x/manual.pdf"
    content_type := none
    ingestion_timestamp := none }

/-- A `Table` element whose HTML rendering is a single space: non-empty,
hence truthy in Python, but whitespace-only. -/
def eTableWs : Doc :=
  { eTable with text_as_html := some " " }

/-- A `NarrativeText` element from `guide.pdf`. -/
def eText : Doc :=
  { page_content := "Press the red button to start the appliance."
    category := some "NarrativeText"
    text_as_html := none
    filename := some "guide.pdf"
    page_number := some 2
    source := some "/tmp/x/guide.pdf"
    content_type := none
    ingestion_timestamp := none }

/-- A text splitter that produces no pieces (the table lane never calls it). -/
def tsNone : Doc → List Doc := fun _ => []

/-- A text splitter that returns one fixed non-empty piece for any input. -/
def tsConst : Doc → List Doc := fun _ => [eText]

/-- A run environment in which every stage succeeds except the final GCS
upload. -/
def envUploadFails : RunEnv :=
  { blobs := ["a.pdf", "note.txt"]
    download_error := none
    local_file_size := fun _ => some 5
    parse_result := .ok [eTable]
    build_result := .ok ()
    artifact := { dirExists := true, faiss_size := some 3, pkl_size := some 4 }
    upload_result := .error (.other "boom")
    now := 7
    elapsed := 2 }

/-- A run environment in which every stage, the upload included, succeeds. -/
def envAllOk : RunEnv :=
  { envUploadFails with upload_result := .ok () }

/-- A run environment with two PDFs and one non-PDF object, where one of
the two downloaded PDFs is zero-byte and is dropped by validation. -/
def envDrop : RunEnv :=
  { envAllOk with
      blobs := ["a.pdf", "b.pdf", "note.txt"]
      local_file_size := fun p => if p = "/tmp/ingest0/a.pdf" then some 5 else some 0 }

/-- A concrete configuration. -/
def cfg0 : IngestionConfig :=
  { project_id := "p"
    raw_docs_bucket := "bkt"
    vector_store_bucket := "vs"
    chunk_size := 1000
    chunk_overlap := 100
    max_retries := 3
    batch_size := 10
    temp_dir := "/tmp/raw_docs" }

/-! ### Helper lemmas -/

theorem String.data_append_eq (a b : String) : (a ++ b).data = a.data ++ b.data :=
  rfl

theorem afterLastSlash_append_slash (xs ys : List Char) :
    afterLastSlash (xs ++ '/' :: ys) = afterLastSlash ys := by
  unfold afterLastSlash
  rw [List.foldl_append, List.foldl_cons]
  simp

theorem afterLastSlash_of_not_mem (ys : List Char) (h : '/' ∉ ys) :
    afterLastSlash ys = ys := by
  have key : ∀ (l : List Char), '/' ∉ l → ∀ acc,
      List.foldl (fun acc c => if c = '/' then [] else acc ++ [c]) acc l = acc ++ l := by
    intro l
    induction l with
    | nil => intro _ acc; simp
    | cons y ys ih =>
      intro hy acc
      have hyne : y ≠ '/' := fun hEq => hy (hEq ▸ List.mem_cons_self y ys)
      rw [List.foldl_cons, if_neg hyne, ih (fun hm => hy (List.mem_cons_of_mem y hm))]
      simp
  simpa using key ys h []

/-- `pathName` recovers the final component of `<prefix-path>/<fn>` whenever
`fn` is a plain non-empty name without slashes. -/
theorem pathName_concat (p fn : String) (hne : fn.data ≠ []) (hslash : '/' ∉ fn.data) :
    pathName (p ++ "/" ++ fn) = fn := by
  obtain ⟨c, t, hrev⟩ : ∃ c t, fn.data.reverse = c :: t := by
    cases h : fn.data.reverse with
    | nil => exact absurd (List.reverse_eq_nil_iff.mp h) hne
    | cons c t => exact ⟨c, t, rfl⟩
  have hc : c ≠ '/' := by
    intro hcEq
    apply hslash
    have hcm : c ∈ fn.data.reverse := by rw [hrev]; exact List.mem_cons_self c t
    rw [List.mem_reverse] at hcm
    rwa [hcEq] at hcm
  have hdata : (p ++ "/" ++ fn).data = p.data ++ '/' :: fn.data := by
    rw [String.data_append_eq, String.data_append_eq]
    simp [show ("/" : String).data = ['/'] from rfl]
  have hfn : t.reverse ++ [c] = fn.data := by
    have h2 := congrArg List.reverse hrev
    simpa using h2.symm
  have hrev2 : (p ++ "/" ++ fn).data.reverse = c :: (t ++ '/' :: p.data.reverse) := by
    rw [hdata, List.reverse_append, List.reverse_cons, hrev]
    simp
  unfold pathName
  rw [hrev2, List.dropWhile_cons, if_neg (by simpa using hc)]
  have hback : (c :: (t ++ '/' :: p.data.reverse)).reverse = p.data ++ '/' :: fn.data := by
    rw [List.reverse_cons, List.reverse_append, List.reverse_cons]
    simp [← hfn]
  rw [hback, afterLastSlash_append_slash, afterLastSlash_of_not_mem fn.data hslash]

/-- A chunk whose source is already a `gs://` URI over a plain filename. -/
def cGcs : Doc :=
  { eText with source := some ("gs://" ++ "bkt" ++ "/" ++ "manual.pdf") }

/-! ### Claim theorems -/

/-- C7: the metadata propagation step is idempotent on `source`: applying the
source-rewrite a second time to a chunk whose source is already
`gs://<raw-docs-bucket>/<filename>` yields the same URI, with no
double-prefixing — for any actual filename (non-empty, no slash, not a
dot component, which is where the `pathlib` model is faithful). -/
theorem metadata_propagation_idempotent_on_source (bucket fn : String)
    (now : Nat) (c : Doc)
    (hsrc : c.source = some ("gs://" ++ bucket ++ "/" ++ fn))
    (hne : fn ≠ "") (hslash : '/' ∉ fn.data)
    (hdot1 : fn ≠ ".") (hdot2 : fn ≠ "..") :
    (propagateMetadata bucket now c).source = c.source := by
  have hneL : fn.data ≠ [] := fun h =>
    hne (by cases fn with | mk d => exact congrArg String.mk h)
  have hpath : pathName ("gs://" ++ bucket ++ "/" ++ fn) = fn :=
    pathName_concat ("gs://" ++ bucket) fn hneL hslash
  simp [propagateMetadata, hsrc, hpath]

/-- Witness for C7 at `bucket = "bkt"`, `fn = "manual.pdf"`. -/
theorem metadata_propagation_idempotent_on_source_witness :
    (cGcs.source = some ("gs://" ++ "bkt" ++ "/" ++ "manual.pdf") ∧
      "manual.pdf" ≠ "" ∧ '/' ∉ "manual.pdf".data) ∧
    (propagateMetadata "bkt" 9 cGcs).source = cGcs.source :=
  ⟨⟨rfl, by decide, by decide⟩,
    metadata_propagation_idempotent_on_source "bkt" "manual.pdf" 9 cGcs rfl
      (by decide) (by decide) (by decide) (by decide)⟩

/-- C3: a `Table` element with non-empty HTML yields exactly one chunk from
`process_documents`, carrying the full HTML as content and content type
`table`, whatever the HTML's length; a `Table` element with empty HTML
yields zero chunks; and the batch output is exactly the concatenation of
each element's chunks. -/
theorem table_element_yields_single_chunk (ts : Doc → List Doc) (bucket : String)
    (now : Nat) (e : Doc) (pdf_files : List String)
    (hcat : e.category = some "Table") (hfiles : pdf_files ≠ []) :
    (e.text_as_html.getD "" ≠ "" →
      ∃ c, process_documents ts bucket now pdf_files (.ok [e]) = .ok [c] ∧
        c.page_content = e.text_as_html.getD "" ∧
        c.content_type = some "table") ∧
    (e.text_as_html.getD "" = "" →
      process_documents ts bucket now pdf_files (.ok [e]) = .ok []) ∧
    (∀ es : List Doc,
      process_documents ts bucket now pdf_files (.ok es) =
        .ok (es.flatMap (chunksOfElement ts bucket now))) := by
  have hfe : pdf_files.isEmpty = false := by
    cases pdf_files with
    | nil => exact absurd rfl hfiles
    | cons a l => rfl
  refine ⟨?_, ?_, ?_⟩
  · intro hhtml
    refine ⟨tableChunk now e, ?_, rfl, rfl⟩
    simp [process_documents, hfe, chunksOfElement, hcat, hhtml]
  · intro hhtml
    simp [process_documents, hfe, chunksOfElement, hcat, hhtml]
  · intro es
    simp [process_documents, hfe]

/-- Witness for C3 at the concrete table element `eTable`. -/
theorem table_element_yields_single_chunk_witness :
    (eTable.category = some "Table" ∧ (["f.pdf"] : List String) ≠ []) ∧
    (∃ c, process_documents tsNone "bkt" 7 ["f.pdf"] (.ok [eTable]) = .ok [c] ∧
      c.page_content = eTable.text_as_html.getD "" ∧
      c.content_type = some "table") :=
  ⟨⟨rfl, by decide⟩,
    (table_element_yields_single_chunk tsNone "bkt" 7 eTable ["f.pdf"] rfl
      (by decide)).1 (by decide)⟩

/-- C4 counterexample: the table lane does not rewrite `source` to a
`gs://` URI — the emitted table chunk keeps the bare original filename. -/
theorem table_chunk_source_not_rewritten :
    ∃ c, process_documents tsNone "bkt" 7 ["f.pdf"] (.ok [eTable]) = .ok [c] ∧
      c.source = some "manual.pdf" ∧
      c.source ≠ some ("gs://" ++ "bkt" ++ "/" ++ "manual.pdf") :=
  ⟨tableChunk 7 eTable, by decide, by decide, by decide⟩

/-- C4 (amended): every emitted chunk gets `content_type` and
`ingestion_timestamp` set, but the `source` rewrite to
`gs://<raw-docs-bucket>/<original-filename>` happens only in the text
lane; a table chunk's `source` is the element's `filename` metadata
verbatim. -/
theorem metadata_propagation_by_lane (ts : Doc → List Doc) (bucket : String)
    (now : Nat) (e : Doc) :
    (∀ c ∈ chunksOfElement ts bucket now e,
      c.ingestion_timestamp = some now ∧
      (c.content_type = some "table" ∨ c.content_type = some "text")) ∧
    (e.category = some "Table" →
      ∀ c ∈ chunksOfElement ts bucket now e, c.source = e.filename) ∧
    ((e.category = some "Title" ∨ e.category = some "NarrativeText" ∨
        e.category = some "ListItem") →
      ∀ c ∈ chunksOfElement ts bucket now e,
        ∃ c₀ ∈ ts e, c = propagateMetadata bucket now c₀ ∧
          c.source = some ("gs://" ++ bucket ++ "/" ++
            pathName (c₀.source.getD ""))) := by
  refine ⟨?_, ?_, ?_⟩
  · intro c hc
    unfold chunksOfElement at hc
    split at hc
    · split at hc
      · simp at hc
        subst hc
        exact ⟨rfl, .inl rfl⟩
      · simp at hc
    · split at hc
      · obtain ⟨c₀, _, rfl⟩ := List.mem_map.mp hc
        exact ⟨rfl, .inr rfl⟩
      · simp at hc
  · intro hcat c hc
    unfold chunksOfElement at hc
    rw [if_pos hcat] at hc
    split at hc
    · simp at hc
      subst hc
      rfl
    · simp at hc
  · intro hcats c hc
    have hne : ¬ e.category = some "Table" := by
      rcases hcats with h | h | h <;> simp [h]
    unfold chunksOfElement at hc
    rw [if_neg hne, if_pos hcats] at hc
    obtain ⟨c₀, hc₀, rfl⟩ := List.mem_map.mp hc
    exact ⟨c₀, hc₀, rfl, rfl⟩

/-- Witness for C4 (amended) on a concrete text element. -/
theorem metadata_propagation_by_lane_witness :
    (∀ c ∈ chunksOfElement tsConst "bkt" 7 eText,
      c.ingestion_timestamp = some 7 ∧
      (c.content_type = some "table" ∨ c.content_type = some "text")) ∧
    (∀ c ∈ chunksOfElement tsConst "bkt" 7 eText,
      ∃ c₀ ∈ tsConst eText, c = propagateMetadata "bkt" 7 c₀ ∧
        c.source = some ("gs://" ++ "bkt" ++ "/" ++ pathName (c₀.source.getD ""))) :=
  ⟨(metadata_propagation_by_lane tsConst "bkt" 7 eText).1,
    (metadata_propagation_by_lane tsConst "bkt" 7 eText).2.2 (.inr (.inl rfl))⟩

/-- C8 counterexample: a `Table` element whose HTML is a single space
passes the Python truthiness check, so `process_documents` emits a chunk
whose content is whitespace-only. -/
theorem whitespace_only_table_chunk_emitted :
    ∃ c, process_documents tsNone "bkt" 7 ["f.pdf"] (.ok [eTableWs]) = .ok [c] ∧
      c.page_content ≠ "" ∧ c.page_content.data.all Char.isWhitespace = true :=
  ⟨tableChunk 7 eTableWs, by decide, by decide, by decide⟩

/-- C8 (amended): no chunk emitted by `process_documents` has empty
content — the table lane checks non-emptiness, and the text lane preserves
the content of the splitter's pieces, which the external splitter never
returns empty — but whitespace-only content is not excluded (see
`whitespace_only_table_chunk_emitted`). -/
theorem chunks_never_empty (ts : Doc → List Doc) (bucket : String) (now : Nat)
    (pdf_files : List String) (parseRes : Except PyErr (List Doc)) (chunks : List Doc)
    (hts : ∀ d, ∀ c ∈ ts d, c.page_content ≠ "")
    (hok : process_documents ts bucket now pdf_files parseRes = .ok chunks) :
    ∀ c ∈ chunks, c.page_content ≠ "" := by
  intro c hc
  unfold process_documents at hok
  split at hok
  · simp at hok
  · match hp : parseRes, hok with
    | .ok es, hok =>
      simp only [Except.ok.injEq] at hok
      subst hok
      obtain ⟨e, _, hce⟩ := List.mem_flatMap.mp hc
      unfold chunksOfElement at hce
      split at hce
      · split at hce
        · next hhtml =>
          simp at hce
          subst hce
          exact hhtml
        · simp at hce
      · split at hce
        · obtain ⟨c₀, hc₀, rfl⟩ := List.mem_map.mp hce
          exact hts e c₀ hc₀
        · simp at hce
    | .error e, hok =>
      simp at hok

/-- Witness for C8 (amended) on a concrete successful processing run. -/
theorem chunks_never_empty_witness :
    (∀ d, ∀ c ∈ tsConst d, c.page_content ≠ "") ∧
    (∀ c ∈ [tableChunk 7 eTable], c.page_content ≠ "") := by
  have hts : ∀ d, ∀ c ∈ tsConst d, c.page_content ≠ "" := by
    intro d c hc
    simp [tsConst] at hc
    subst hc
    decide
  exact ⟨hts, chunks_never_empty tsConst "bkt" 7 ["f.pdf"] (.ok [eTable]) _ hts
    (by decide)⟩

/-- C5 counterexample: `IngestionConfig` construction succeeds even with
`chunk_size ≤ 0` and `chunk_overlap ≥ chunk_size` — it does not raise. -/
theorem config_construction_accepts_invalid_sizes :
    ∃ cfg, IngestionConfig.make "p" "raw" "vec" 0 0 3 10 "/tmp/raw_docs" = .ok cfg ∧
      cfg.chunk_size ≤ 0 ∧ cfg.chunk_overlap ≥ cfg.chunk_size :=
  ⟨_, rfl, by decide, by decide⟩

/-- C5 (amended): constructing the ingestion configuration never fails —
the dataclass stores its fields verbatim with no validation, so
`chunk_size ≤ 0` or `chunk_overlap ≥ chunk_size` are accepted at
configuration construction time. -/
theorem config_construction_never_fails (project_id raw_docs_bucket
    vector_store_bucket : String) (chunk_size chunk_overlap : Int)
    (max_retries batch_size : Nat) (temp_dir : String) :
    ∃ cfg, IngestionConfig.make project_id raw_docs_bucket vector_store_bucket
        chunk_size chunk_overlap max_retries batch_size temp_dir = .ok cfg ∧
      cfg.chunk_size = chunk_size ∧ cfg.chunk_overlap = chunk_overlap :=
  ⟨_, rfl, rfl, rfl⟩

/-- C6 (evaluation at the failing input): when the GCS call raises a
transient error on the first attempt, both decorated operations make
exactly one attempt for every retry budget — the body's blanket `except`
wraps the transient error into `IngestionError`, which
`if_transient_error` rejects, so the decorator never retries and the
wrapped error is surfaced immediately. -/
theorem transient_errors_not_retried (td : TempDir)
    (listing : Nat → Except PyErr (List String)) (uploads : Nat → Except PyErr Unit)
    (fuel : Nat) (m m' : String)
    (h1 : listing 0 = .error (.transient m))
    (h2 : uploads 0 = .error (.transient m')) :
    download_from_gcs td listing fuel =
      (.error (.ingestion ("GCS download failed: " ++ m)), 1) ∧
    upload_to_gcs uploads fuel =
      (.error (.ingestion ("GCS upload failed: " ++ m')), 1) := by
  constructor
  · cases fuel with
    | zero =>
      simp [download_from_gcs, retryCall, download_from_gcs_body, h1, PyErr.message]
    | succ n =>
      simp [download_from_gcs, retryCall, download_from_gcs_body, h1, PyErr.message,
        if_transient_error]
  · cases fuel with
    | zero =>
      simp [upload_to_gcs, retryCall, upload_to_gcs_body, h2, PyErr.message]
    | succ n =>
      simp [upload_to_gcs, retryCall, upload_to_gcs_body, h2, PyErr.message,
        if_transient_error]

/-- Witness for C6: a concrete `ServiceUnavailable`-like transient failure
with retry budget 3 still yields a single attempt. -/
theorem transient_errors_not_retried_witness :
    ((fun _ : Nat => (.error (.transient "503") : Except PyErr (List String))) 0 =
        .error (.transient "503") ∧
      (fun _ : Nat => (.error (.transient "502") : Except PyErr Unit)) 0 =
        .error (.transient "502")) ∧
    download_from_gcs ⟨0⟩ (fun _ => .error (.transient "503")) 3 =
      (.error (.ingestion ("GCS download failed: " ++ "503")), 1) ∧
    upload_to_gcs (fun _ => .error (.transient "502")) 3 =
      (.error (.ingestion ("GCS upload failed: " ++ "502")), 1) :=
  ⟨⟨rfl, rfl⟩,
    transient_errors_not_retried ⟨0⟩ (fun _ => .error (.transient "503"))
      (fun _ => .error (.transient "502")) 3 "503" "502" rfl rfl⟩

/-- C2: when every stage up to and including the index build succeeds and
the GCS upload then raises, `run` catches the exception and returns a
stats record with `success = true`, `upload_failed = true` and
`upload_error` set to the failure text — it does not raise. -/
theorem run_upload_failure_degraded_success (ts : Doc → List Doc)
    (cfg : IngestionConfig) (env : RunEnv) (g : Nat) (chunks : List Doc)
    (p : String) (e : PyErr)
    (hdl : env.download_error = none)
    (hproc : process_documents ts cfg.raw_docs_bucket env.now
        (validate_pdf_files env.local_file_size
          (download_from_gcs_files (mkdtemp g).1 env.blobs)) env.parse_result =
        .ok chunks)
    (hcreate : create_vector_store chunks env.build_result env.artifact
        (mkdtemp g).1.path = .ok p)
    (hup : env.upload_result = .error e) :
    (runP ts cfg env g).result = .ok
      { files_processed := (download_from_gcs_files (mkdtemp g).1 env.blobs).length
        chunks_created := chunks.length
        processing_time := env.elapsed
        success := true
        upload_failed := some true
        upload_error := some ("GCS upload failed: " ++ e.message) } := by
  simp [runP, hdl, download_from_gcs_body, hproc, hcreate, hup, upload_to_gcs_body,
    PyErr.message]

/-- Witness for C2 on the concrete environment `envUploadFails`. -/
theorem run_upload_failure_degraded_success_witness :
    (envUploadFails.download_error = none ∧
      process_documents tsNone cfg0.raw_docs_bucket envUploadFails.now
        (validate_pdf_files envUploadFails.local_file_size
          (download_from_gcs_files (mkdtemp 0).1 envUploadFails.blobs))
        envUploadFails.parse_result = .ok [tableChunk 7 eTable] ∧
      create_vector_store [tableChunk 7 eTable] envUploadFails.build_result
        envUploadFails.artifact (mkdtemp 0).1.path = .ok "/tmp/ingest0/faiss_index" ∧
      envUploadFails.upload_result = .error (.other "boom")) ∧
    (runP tsNone cfg0 envUploadFails 0).result = .ok
      { files_processed := (download_from_gcs_files (mkdtemp 0).1 envUploadFails.blobs).length
        chunks_created := [tableChunk 7 eTable].length
        processing_time := envUploadFails.elapsed
        success := true
        upload_failed := some true
        upload_error := some ("GCS upload failed: " ++ (PyErr.other "boom").message) } :=
  ⟨⟨rfl, by decide, by decide, rfl⟩,
    run_upload_failure_degraded_success tsNone cfg0 envUploadFails 0
      [tableChunk 7 eTable] "/tmp/ingest0/faiss_index" (.other "boom") rfl
      (by decide) (by decide) rfl⟩

/-- C1: `create_vector_store` returns an artifact path exactly when the
chunk list is non-empty, the external build succeeded, the index directory
exists and both required files `index.faiss` and `index.pkl` exist with
non-zero size; whenever any of these checks fails (the empty chunk list
included) it raises an `IngestionError`; and within `run` the upload step
is only ever entered when `create_vector_store`, applied to the very chunk
list that run's `process_documents` produced, returned a path — so a run
whose build validation fails on any check, the empty chunk list included,
never uploads. -/
theorem create_vector_store_validation (chunks : List Doc)
    (buildRes : Except PyErr Unit) (art : FaissArtifact) (local_dir : String) :
    ((∃ p, create_vector_store chunks buildRes art local_dir = .ok p) ↔
      (chunks ≠ [] ∧ buildRes = .ok () ∧ art.dirExists = true ∧
        (∃ n, art.faiss_size = some n ∧ 0 < n) ∧
        (∃ m, art.pkl_size = some m ∧ 0 < m))) ∧
    ((chunks = [] ∨ art.dirExists = false ∨ art.faiss_size = none ∨
        art.faiss_size = some 0 ∨ art.pkl_size = none ∨ art.pkl_size = some 0) →
      ∃ err, create_vector_store chunks buildRes art local_dir = .error err) ∧
    (∀ ts cfg env g, (runP ts cfg env g).upload_attempted = true →
      env.download_error = none ∧
      ∃ chunks2 p,
        process_documents ts cfg.raw_docs_bucket env.now
          (validate_pdf_files env.local_file_size
            (download_from_gcs_files (mkdtemp g).1 env.blobs)) env.parse_result =
          .ok chunks2 ∧
        create_vector_store chunks2 env.build_result env.artifact
          (mkdtemp g).1.path = .ok p) := by
  have hiff : (∃ p, create_vector_store chunks buildRes art local_dir = .ok p) ↔
      (chunks ≠ [] ∧ buildRes = .ok () ∧ art.dirExists = true ∧
        (∃ n, art.faiss_size = some n ∧ 0 < n) ∧
        (∃ m, art.pkl_size = some m ∧ 0 < m)) := by
    constructor
    · rintro ⟨p, hp⟩
      cases chunks with
      | nil => simp [create_vector_store] at hp
      | cons c0 cs =>
        cases buildRes with
        | error e => simp [create_vector_store] at hp
        | ok u =>
          cases u
          cases hde : art.dirExists with
          | false => simp [create_vector_store, hde] at hp
          | true =>
            cases hfs : art.faiss_size with
            | none => simp [create_vector_store, hde, hfs] at hp
            | some n =>
              by_cases hn : n = 0
              · simp [create_vector_store, hde, hfs, hn] at hp
              · cases hps : art.pkl_size with
                | none => simp [create_vector_store, hde, hfs, hn, hps] at hp
                | some m =>
                  by_cases hm : m = 0
                  · simp [create_vector_store, hde, hfs, hn, hps, hm] at hp
                  · exact ⟨by simp, rfl, rfl,
                      ⟨n, rfl, Nat.pos_of_ne_zero hn⟩,
                      ⟨m, rfl, Nat.pos_of_ne_zero hm⟩⟩
    · rintro ⟨hchunks, hbuild, hdir, ⟨n, hfs, hn⟩, ⟨m, hps, hm⟩⟩
      refine ⟨local_dir ++ "/faiss_index", ?_⟩
      have hemp : chunks.isEmpty = false := by
        cases chunks with
        | nil => exact absurd rfl hchunks
        | cons c0 cs => rfl
      subst hbuild
      simp [create_vector_store, hemp, hdir, hfs, hps, Nat.pos_iff_ne_zero.mp hn,
        Nat.pos_iff_ne_zero.mp hm]
  refine ⟨hiff, ?_, ?_⟩
  · intro hfail
    have total : ∀ r : Except IngestionError String,
        (∃ p, r = .ok p) ∨ (∃ err, r = .error err) := by
      intro r
      cases r with
      | ok p => exact .inl ⟨p, rfl⟩
      | error err => exact .inr ⟨err, rfl⟩
    rcases total (create_vector_store chunks buildRes art local_dir) with hok | herr
    · exfalso
      obtain ⟨hchunks, _, hdir, ⟨n, hfs, hn⟩, ⟨m, hps, hm⟩⟩ := hiff.mp hok
      rcases hfail with h | h | h | h | h | h
      · exact hchunks h
      · rw [hdir] at h
        cases h
      · rw [hfs] at h
        exact Option.some_ne_none n h
      · rw [hfs] at h
        have : n = 0 := Option.some.inj h
        omega
      · rw [hps] at h
        exact Option.some_ne_none m h
      · rw [hps] at h
        have : m = 0 := Option.some.inj h
        omega
    · exact herr
  · intro ts cfg env g h
    simp only [runP] at h
    cases hdl : env.download_error with
    | some e =>
      rw [hdl] at h
      simp [download_from_gcs_body] at h
    | none =>
      rw [hdl] at h
      simp only [download_from_gcs_body] at h
      split at h
      · simp at h
      · next chunks2 hproc =>
        split at h
        · simp at h
        · next path hcreate =>
          exact ⟨rfl, chunks2, path, hproc, hcreate⟩

/-- Witness for C1: a healthy artifact passes validation and yields a
path; a zero-byte `index.pkl` (end-to-end scenario D) yields an error. -/
theorem create_vector_store_validation_witness :
    (∃ p, create_vector_store [tableChunk 7 eTable] (.ok ())
        { dirExists := true, faiss_size := some 3, pkl_size := some 4 } "/d" =
        .ok p) ∧
    (∃ err, create_vector_store [tableChunk 7 eTable] (.ok ())
        { dirExists := true, faiss_size := some 3, pkl_size := some 0 } "/d" =
        .error err) :=
  ⟨(create_vector_store_validation [tableChunk 7 eTable] (.ok ())
      { dirExists := true, faiss_size := some 3, pkl_size := some 4 } "/d").1.mpr
    ⟨by decide, rfl, rfl, ⟨3, rfl, by decide⟩, ⟨4, rfl, by decide⟩⟩,
   (create_vector_store_validation [tableChunk 7 eTable] (.ok ())
      { dirExists := true, faiss_size := some 3, pkl_size := some 0 } "/d").2.1
    (.inr (.inr (.inr (.inr (.inr rfl)))))⟩

/-- C9: whenever `run` returns a stats record, `files_processed` equals
the number of PDF objects the download stage fetched — the listed blobs
whose lowercased name ends in `.pdf` — regardless of how many of them the
validation stage later drops (the count is assigned before validation and
does not depend on the local file sizes). -/
theorem files_processed_counts_downloaded_pdfs (ts : Doc → List Doc)
    (cfg : IngestionConfig) (env : RunEnv) (g : Nat) (stats : RunStats)
    (h : (runP ts cfg env g).result = .ok stats) :
    stats.files_processed = (pdfBlobs env.blobs).length := by
  simp only [runP] at h
  cases hdl : env.download_error with
  | some e =>
    rw [hdl] at h
    simp [download_from_gcs_body] at h
  | none =>
    rw [hdl] at h
    simp only [download_from_gcs_body] at h
    split at h
    · simp at h
    · split at h
      · simp at h
      · split at h <;>
        · simp only [Except.ok.injEq] at h
          subst h
          simp [download_from_gcs_files]

/-- Witness for C9: with three listed blobs — two PDFs, one of them
zero-byte and dropped by validation, plus one skipped `.txt` —
`files_processed` is 2. -/
theorem files_processed_counts_downloaded_pdfs_witness :
    (runP tsNone cfg0 envDrop 0).result = .ok
      { files_processed := 2
        chunks_created := 1
        processing_time := 2
        success := true
        upload_failed := none
        upload_error := none } ∧
    ({ files_processed := 2, chunks_created := 1, processing_time := 2,
       success := true, upload_failed := none,
       upload_error := none } : RunStats).files_processed =
      (pdfBlobs envDrop.blobs).length :=
  ⟨by decide,
    files_processed_counts_downloaded_pdfs tsNone cfg0 envDrop 0 _ (by decide)⟩

/-- C10: every run takes its scratch directory from a fresh `mkdtemp`
call — two runs chained through the generator never share one — and no
pipeline operation reads `IngestionConfig.temp_dir`: changing that field
changes nothing about the run. -/
theorem scratch_dir_fresh_and_temp_dir_unused (ts : Doc → List Doc)
    (cfg : IngestionConfig) (env env' : RunEnv) (g : Nat) (x : String) :
    runP ts { cfg with temp_dir := x } env g = runP ts cfg env g ∧
    (runP ts cfg env g).scratch = (mkdtemp g).1 ∧
    (runP ts cfg env' (mkdtemp g).2).scratch ≠ (runP ts cfg env g).scratch := by
  have hscr : ∀ (c : IngestionConfig) (e : RunEnv) (n : Nat),
      (runP ts c e n).scratch = (mkdtemp n).1 := by
    intro c e n
    simp only [runP]
    split
    · rfl
    · split
      · rfl
      · split
        · rfl
        · split
          · rfl
          · rfl
  refine ⟨rfl, hscr cfg env g, ?_⟩
  rw [hscr cfg env' (mkdtemp g).2, hscr cfg env g]
  simp [mkdtemp, TempDir.mk.injEq]
